import Mathlib

/-!
Shallow embedding of the lead-scoring API (src/main.py) and proofs of the
frozen claims about it.

The program is a FastAPI service: a Pipedrive webhook handler that extracts
a deal record, one-hot encodes its five UTM tags with `pd.get_dummies`,
aligns the encoded row against the persisted `model_columns` list, scores it
with an opaque trained model and writes the score back to the CRM.

Machine reals (the probability, the deal value) are modelled as `ℚ`; JSON
values reaching the handler as the inductive `Jval` (null / string / number);
the opaque scorer (`model.predict_proba(...)[:, 1][0]`) as an arbitrary
function `List Jval → ℚ`; the outbound HTTP call's outcome as `HttpOutcome`.
Each definition carries the source lines it is translated from, except the
ones marked `Modelled from the spec:` whose source file is not in the
repository snapshot.
-/

namespace LeadScoring

/-- A JSON value as it reaches the handler after `await request.json()`:
the fields this program touches are null, strings or numbers. -/
inductive Jval where
  | null : Jval
  | str : String → Jval
  | num : ℚ → Jval
deriving DecidableEq, Repr

/-- Python truthiness of a value that may be absent (`None`) — used for
`if not deal_id` (src/main.py line 88). -/
def truthy : Option Jval → Bool
  | none => false
  | some Jval.null => false
  | some (Jval.str s) => s != ""
  | some (Jval.num q) => q != 0

/-- Python truthiness of a present value — used by `... or 0`
(src/main.py line 98). -/
def jtruthy : Jval → Bool
  | Jval.null => false
  | Jval.str s => s != ""
  | Jval.num q => q != 0

/-- Python truthiness of an environment variable (`None` and `""` are falsy). -/
def optTruthy : Option String → Bool
  | none => false
  | some s => s != ""

/-- Python `str(...)` of a possibly-absent value, as an f-string renders it
(src/main.py lines 93, 109). -/
def pyStr : Option Jval → String
  | none => "None"
  | some Jval.null => "None"
  | some (Jval.str s) => s
  | some (Jval.num q) => toString q

/-- The six-field record both handlers build for the model: `valor` plus the
five UTM tags (src/main.py lines 97-104). Values stay `Jval` because the
payload may carry null or non-string tags through unchanged. -/
structure DealForModel where
  valor : Jval
  utm_source : Jval
  utm_medium : Jval
  utm_campaign : Jval
  utm_content : Jval
  utm_term : Jval
deriving DecidableEq, Repr

/-- The category label `pd.get_dummies` derives from a cell: a string is used
as is, NaN/None cells are dropped (`dummy_na=False`), other scalars are
rendered. -/
def jvalCategoryName : Jval → Option String
  | Jval.null => none
  | Jval.str s => some s
  | Jval.num q => some (toString q)

/-- The one-hot columns `pd.get_dummies` produces for one categorical field of
a single-row frame: one column `field_value` holding 1, or none for NaN
(src/main.py line 49). -/
def dummyCols (field : String) (v : Jval) : List (String × Jval) :=
  match jvalCategoryName v with
  | none => []
  | some s => [(field ++ "_" ++ s, Jval.num 1)]

/-- `pd.get_dummies(input_df, columns=[utm_campaign, utm_content, utm_medium,
utm_source, utm_term])` on the single-row frame (src/main.py lines 48-49):
the non-encoded column `valor` first, then the dummy groups in the order of
the `columns` argument. -/
def get_dummies (d : DealForModel) : List (String × Jval) :=
  ("valor", d.valor) ::
    (dummyCols "utm_campaign" d.utm_campaign ++
     dummyCols "utm_content" d.utm_content ++
     dummyCols "utm_medium" d.utm_medium ++
     dummyCols "utm_source" d.utm_source ++
     dummyCols "utm_term" d.utm_term)

/-- Reading one cell of the single-row frame by column name; the `Jval.num 0`
default is the `.fillna(0)` of src/main.py line 52. -/
def lookupVal : List (String × Jval) → String → Jval
  | [], _ => Jval.num 0
  | (k, v) :: t, c => if k = c then v else lookupVal t c

/-- `pd.concat([pd.DataFrame(columns=model_columns), input_df_dummies],
ignore_index=True, sort=False).fillna(0)` (src/main.py lines 51-52): columns
of the empty registry-shaped frame first (zero-filled where the encoded row
lacks them), then the encoded row's remaining columns. -/
def concatRow (cols : List String) (row : List (String × Jval)) : List (String × Jval) :=
  cols.map (fun c => (c, lookupVal row c)) ++
    row.filter (fun p => !(cols.contains p.1))

/-- `final_df[col] = v` (src/main.py line 53): overwrite the column when
present, append it otherwise. -/
def setColumn (df : List (String × Jval)) (c : String) (v : Jval) : List (String × Jval) :=
  if df.any (fun p => p.1 = c) then
    df.map (fun p => if p.1 = c then (p.1, v) else p)
  else
    df ++ [(c, v)]

/-- `final_df[model_columns]` (src/main.py line 54): select the named columns
in the given order. (pandas raises on a missing name; in this pipeline every
requested name is present, see `c1_alignment`.) -/
def selectColumns (df : List (String × Jval)) (cols : List String) : List (String × Jval) :=
  cols.map (fun c => (c, lookupVal df c))

/-- One step of `re.compile(r"\[|\]|<").sub("_", col)`: the three characters
the regex matches are each replaced by an underscore. -/
def sanitizeChar (c : Char) : Char :=
  if c = '[' ∨ c = ']' ∨ c = '<' then '_' else c

/-- `regex.sub("_", col)` for the column-name regex of src/main.py line 56:
character-wise replacement. -/
def sanitize (s : String) : String := ⟨s.data.map sanitizeChar⟩

/-- src/main.py lines 48-57: the labelled single-row frame handed to
`model.predict_proba` — encode, align against `model_columns`, force
`ciclo_em_dias` to 0, select the registry columns in order, then rewrite the
column labels with the sanitizing regex. -/
def get_prediction_input (model_columns : List String) (d : DealForModel) :
    List (String × Jval) :=
  (selectColumns
      (setColumn (concatRow model_columns (get_dummies d)) "ciclo_em_dias" (Jval.num 0))
      model_columns).map (fun p => (sanitize p.1, p.2))

/-- src/main.py lines 46-60: the probability returned for one deal record.
`scorer` is the opaque `model.predict_proba(...)[:, 1][0]`, a function of the
row's values in column order. -/
def get_prediction_for_deal (scorer : List Jval → ℚ) (model_columns : List String)
    (d : DealForModel) : ℚ :=
  scorer ((get_prediction_input model_columns d).map Prod.snd)

/-- The environment-derived configuration (src/main.py lines 18-21). -/
structure Config where
  PIPEDRIVE_API_KEY : Option String
  LEAD_SCORE_FIELD_KEY : Option String
  WEBHOOK_USER : Option String
  WEBHOOK_PASSWORD : Option String
deriving DecidableEq, Repr

/-- src/main.py line 24. -/
def TARGET_PIPELINE_ID : ℚ := 1

/-- The HTTP Basic credentials FastAPI hands `verify_credentials`. -/
structure HTTPBasicCredentials where
  username : String
  password : String
deriving DecidableEq, Repr

/-- `secrets.compare_digest` at the boundary: equality of the two strings.
(Its constant-time execution is the library primitive's contract; the
embedding keeps the fact that both credential halves go through it.) -/
def compare_digest (a b : String) : Bool := a == b

/-- src/main.py lines 31-43: compare both halves against the configured
secrets (empty string when the variable is unset) and raise 401 on failure. -/
def verify_credentials (cfg : Config) (credentials : HTTPBasicCredentials) :
    Except (Nat × String) Bool :=
  let stored_username := cfg.WEBHOOK_USER.getD ""
  let stored_password := cfg.WEBHOOK_PASSWORD.getD ""
  let is_user_correct := compare_digest credentials.username stored_username
  let is_pass_correct := compare_digest credentials.password stored_password
  if !(is_user_correct && is_pass_correct) then
    Except.error (401, "Credenciais inválidas")
  else
    Except.ok true

/-- The outcome of `requests.put(...)` as the caller observes it: a response
with a status code, or a raised `requests.exceptions.RequestException`. -/
inductive HttpOutcome where
  | ok : Nat → HttpOutcome
  | exn : String → HttpOutcome
deriving DecidableEq, Repr

/-- Whether the `try` body of src/main.py lines 72-75 raises:
`requests.put` itself raised, or `response.raise_for_status()` did —
`raise_for_status` raises exactly for status codes in [400, 600). -/
def httpFailed : HttpOutcome → Bool
  | HttpOutcome.exn _ => true
  | HttpOutcome.ok code => decide (400 ≤ code ∧ code < 600)

/-- Python `round` ties-to-even on an exact rational. -/
def roundHalfEven (x : ℚ) : ℤ :=
  let n : ℤ := x.floor
  let r : ℚ := x - n
  if r < 1 / 2 then n
  else if 1 / 2 < r then n + 1
  else if n % 2 = 0 then n else n + 1

/-- Python `round(x, 2)` (src/main.py line 70). -/
def pyRound2 (x : ℚ) : ℚ := (roundHalfEven (x * 100) : ℚ) / 100

/-- What `update_pipedrive_deal` did: the PUT payloads attempted (field key ↦
value) and whether the except-branch logged an error. -/
structure UpdateResult where
  calls : List (String × ℚ)
  loggedError : Bool
deriving DecidableEq, Repr

/-- src/main.py lines 63-77: skip the call when either key is unconfigured;
otherwise PUT `{field_key: round(score*100, 2)}` once, and log (never
re-raise, never retry) when the request raises or `raise_for_status` does. -/
def update_pipedrive_deal (cfg : Config) (http : HttpOutcome) (_deal_id : Jval)
    (score : ℚ) : UpdateResult :=
  if optTruthy cfg.PIPEDRIVE_API_KEY && optTruthy cfg.LEAD_SCORE_FIELD_KEY then
    { calls := [(cfg.LEAD_SCORE_FIELD_KEY.getD "", pyRound2 (score * 100))],
      loggedError := httpFailed http }
  else
    { calls := [], loggedError := false }

/-- The JSON body a handler returns. -/
structure WebhookResponse where
  status : String
  message : String
deriving DecidableEq, Repr

/-- The observable outcome of one webhook request: the response body, whether
the scoring pipeline ran, and the CRM write-back's record when it was invoked. -/
structure WebhookOutcome where
  response : WebhookResponse
  scored : Bool
  update : Option UpdateResult
deriving DecidableEq, Repr

/-- src/main.py lines 97-104: the record built for the model.
`deal_info.get(k, default)` substitutes the default only when the key is
absent; `value` additionally goes through `or 0`. -/
def webhook_deal_for_model (deal_info : List (String × Jval)) : DealForModel :=
  { valor :=
      (fun v => if jtruthy v then v else Jval.num 0)
        ((deal_info.lookup "value").getD (Jval.num 0)),
    utm_source := (deal_info.lookup "utm_source").getD (Jval.str "desconhecido"),
    utm_medium := (deal_info.lookup "utm_medium").getD (Jval.str "desconhecido"),
    utm_campaign := (deal_info.lookup "utm_campaign").getD (Jval.str "desconhecido"),
    utm_content := (deal_info.lookup "utm_content").getD (Jval.str "desconhecido"),
    utm_term := (deal_info.lookup "utm_term").getD (Jval.str "desconhecido") }

/-- src/main.py lines 80-109: authenticate, read `current` (defaulting to an
empty object), acknowledge events without a truthy `id`, acknowledge events
outside the target pipeline, otherwise score and write back. `current` is the
payload's `"current"` member (`none` when the envelope lacks it). -/
def pipedrive_webhook (cfg : Config) (scorer : List Jval → ℚ)
    (model_columns : List String) (http : HttpOutcome)
    (credentials : HTTPBasicCredentials)
    (current : Option (List (String × Jval))) :
    Except (Nat × String) WebhookOutcome :=
  match verify_credentials cfg credentials with
  | Except.error e => Except.error e
  | Except.ok _ =>
    let deal_info := current.getD []
    let deal_id := deal_info.lookup "id"
    let pipeline_id := deal_info.lookup "pipeline_id"
    if truthy deal_id = false then
      Except.ok
        { response := { status := "ok", message := "Evento sem ID de negócio, ignorado." },
          scored := false, update := none }
    else if pipeline_id ≠ some (Jval.num TARGET_PIPELINE_ID) then
      Except.ok
        { response :=
            { status := "ok",
              message := "Negócio ignorado (funil " ++ pyStr pipeline_id ++ ")." },
          scored := false, update := none }
    else
      let deal_for_model := webhook_deal_for_model deal_info
      let probability := get_prediction_for_deal scorer model_columns deal_for_model
      let upd := update_pipedrive_deal cfg http (deal_id.getD Jval.null) probability
      Except.ok
        { response :=
            { status := "ok",
              message := "Negócio " ++ pyStr deal_id ++ " processado com sucesso." },
          scored := true, update := some upd }

/-- First two characters of an environment value, as the debug endpoint
previews it (src/main.py lines 132, 134). -/
def pyPreview (s : String) : String := (⟨s.data.take 2⟩ : String) ++ "..."

/-- src/main.py lines 124-135: the temporary debug endpoint, guarded by the
same credential check. -/
def debug_vars (cfg : Config) (credentials : HTTPBasicCredentials) :
    Except (Nat × String) (List (String × String)) :=
  match verify_credentials cfg credentials with
  | Except.error e => Except.error e
  | Except.ok _ =>
    Except.ok
      [("message", "Autenticação BEM-SUCEDIDA! As variáveis de ambiente foram lidas:"),
       ("pipedrive_api_key_loaded", if optTruthy cfg.PIPEDRIVE_API_KEY then "Sim" else "NÃO"),
       ("lead_score_field_key_loaded", if optTruthy cfg.LEAD_SCORE_FIELD_KEY then "Sim" else "NÃO"),
       ("webhook_user_loaded", if optTruthy cfg.WEBHOOK_USER then "Sim" else "NÃO"),
       ("webhook_user_value_preview",
         if optTruthy cfg.WEBHOOK_USER then pyPreview (cfg.WEBHOOK_USER.getD "") else "Nulo"),
       ("webhook_password_loaded", if optTruthy cfg.WEBHOOK_PASSWORD then "Sim" else "NÃO"),
       ("webhook_password_value_preview",
         if optTruthy cfg.WEBHOOK_PASSWORD then pyPreview (cfg.WEBHOOK_PASSWORD.getD "") else "Nulo")]

/-- Modelled from the spec: the Classification Bucketing function (spec §4.4).
The direct-prediction code path is not in src/ (src/main.py holds only the
webhook path); the spec gives the mapping `p > 0.7` → High, `0.4 < p ≤ 0.7` →
Medium, `p ≤ 0.4` → Low with fixed thresholds. -/
def classification_bucket (p : ℚ) : String :=
  if p > 0.7 then "High potential"
  else if p > 0.4 then "Medium potential"
  else "Low potential"

/-- Modelled from the spec: the response label of the direct-prediction
endpoint (spec §6), the same bucketing rendered with the response's fixed
label strings. -/
def prediction_label (p : ℚ) : String :=
  if p > 0.7 then "Ganho Provável"
  else if p > 0.4 then "Potencial Médio"
  else "Perda Provável"

/-- Modelled from the spec: the `POST /predict` request body (spec §6) — one
numeric `valor` and five optional categorical tags. -/
structure PredictRequest where
  valor : ℚ
  utm_campaign : Option String
  utm_content : Option String
  utm_medium : Option String
  utm_source : Option String
  utm_term : Option String

/-- Modelled from the spec: the `POST /predict` response body (spec §6). -/
structure PredictResponse where
  lead_score_probability : ℚ
  prediction_label : String
deriving DecidableEq, Repr

/-- Modelled from the spec: the raw record the direct handler builds — each
optional tag defaults to the sentinel "desconhecido" (spec §6, §4.5). -/
def predict_request_deal (req : PredictRequest) : DealForModel :=
  { valor := Jval.num req.valor,
    utm_source := Jval.str (req.utm_source.getD "desconhecido"),
    utm_medium := Jval.str (req.utm_medium.getD "desconhecido"),
    utm_campaign := Jval.str (req.utm_campaign.getD "desconhecido"),
    utm_content := Jval.str (req.utm_content.getD "desconhecido"),
    utm_term := Jval.str (req.utm_term.getD "desconhecido") }

/-- Modelled from the spec: the direct-prediction handler (spec §4.5, §6) —
run Encoder→Aligner→Scorer→Bucketing on the typed body and return probability
plus label. Its source file is not under src/. -/
def predict_handler (scorer : List Jval → ℚ) (model_columns : List String)
    (req : PredictRequest) : PredictResponse :=
  let probability := get_prediction_for_deal scorer model_columns (predict_request_deal req)
  { lead_score_probability := probability,
    prediction_label := prediction_label probability }

/-! ### String containment (for "message contains `ignorado`") -/

/-- Whether `pat` is an initial run of `s`. -/
def strStartsWith : List Char → List Char → Bool
  | _, [] => true
  | [], _ :: _ => false
  | c :: cs, p :: ps => c == p && strStartsWith cs ps

/-- Whether `pat` occurs contiguously in `s`. -/
def strFind : List Char → List Char → Bool
  | [], pat => strStartsWith [] pat
  | c :: cs, pat => strStartsWith (c :: cs) pat || strFind cs pat

/-- Python's `pat in s` on strings. -/
def containsStr (s pat : String) : Bool := strFind s.data pat.data

/-! ### Helper lemmas -/

theorem strStartsWith_nil_pat (s : List Char) : strStartsWith s [] = true := by
  cases s <;> rfl

theorem strStartsWith_append (s t pat : List Char) (h : strStartsWith s pat = true) :
    strStartsWith (s ++ t) pat = true := by
  induction pat generalizing s with
  | nil => exact strStartsWith_nil_pat _
  | cons p ps ih =>
    cases s with
    | nil => simp [strStartsWith] at h
    | cons c cs =>
      simp only [strStartsWith, Bool.and_eq_true] at h
      simp only [List.cons_append, strStartsWith, Bool.and_eq_true]
      exact ⟨h.1, ih cs h.2⟩

theorem strFind_nil_pat (t : List Char) : strFind t [] = true := by
  cases t <;> rfl

theorem strFind_append_left (s t pat : List Char) (h : strFind s pat = true) :
    strFind (s ++ t) pat = true := by
  induction s with
  | nil =>
    cases pat with
    | nil => simpa using strFind_nil_pat t
    | cons p ps => simp [strFind, strStartsWith] at h
  | cons c cs ih =>
    simp only [strFind, Bool.or_eq_true] at h
    rcases h with h | h
    · simp only [List.cons_append, strFind, Bool.or_eq_true]
      exact Or.inl (strStartsWith_append _ _ _ h)
    · simp only [List.cons_append, strFind, Bool.or_eq_true]
      exact Or.inr (ih h)

theorem containsStr_append_left (a b pat : String) (h : containsStr a pat = true) :
    containsStr (a ++ b) pat = true := by
  have hd : (a ++ b).data = a.data ++ b.data := rfl
  unfold containsStr
  rw [hd]
  exact strFind_append_left _ _ _ h

theorem lookupVal_cons (k : String) (w : Jval) (t : List (String × Jval)) (c : String) :
    lookupVal ((k, w) :: t) c = if k = c then w else lookupVal t c := rfl

theorem lookupVal_map_fst_append (f : String → Jval) (rest : List (String × Jval))
    (c : String) : ∀ (mc : List String), c ∈ mc →
    lookupVal (mc.map (fun k => (k, f k)) ++ rest) c = f c
  | [], hc => absurd hc (List.not_mem_nil c)
  | k :: t, hc => by
    show lookupVal ((k, f k) :: (t.map (fun k => (k, f k)) ++ rest)) c = f c
    rw [lookupVal_cons]
    by_cases h : k = c
    · rw [if_pos h, h]
    · rw [if_neg h]
      rcases List.mem_cons.mp hc with h' | h'
      · exact absurd h'.symm h
      · exact lookupVal_map_fst_append f rest c t h'

theorem lookupVal_absent (c : String) : ∀ (df : List (String × Jval)),
    (∀ p ∈ df, p.1 ≠ c) → lookupVal df c = Jval.num 0
  | [], _ => rfl
  | (k, w) :: t, h => by
    have hk : k ≠ c := h (k, w) (List.mem_cons_self _ _)
    rw [lookupVal_cons, if_neg hk]
    exact lookupVal_absent c t (fun q hq => h q (List.mem_cons_of_mem _ hq))

theorem lookup_overwrite_ne (x : String) (v : Jval) (c : String) (hxc : x ≠ c) :
    ∀ (df : List (String × Jval)),
    lookupVal (df.map (fun p => if p.1 = x then (p.1, v) else p)) c = lookupVal df c
  | [] => rfl
  | (k, w) :: t => by
    show lookupVal ((if k = x then (k, v) else (k, w)) :: _) c = _
    by_cases hk : k = x
    · have hkc : k ≠ c := by rw [hk]; exact hxc
      rw [if_pos hk, lookupVal_cons, lookupVal_cons, if_neg hkc, if_neg hkc]
      exact lookup_overwrite_ne x v c hxc t
    · rw [if_neg hk, lookupVal_cons, lookupVal_cons]
      by_cases hkc : k = c
      · rw [if_pos hkc, if_pos hkc]
      · rw [if_neg hkc, if_neg hkc]
        exact lookup_overwrite_ne x v c hxc t

theorem lookup_overwrite_self (x : String) (v : Jval) :
    ∀ (df : List (String × Jval)), df.any (fun p => p.1 = x) = true →
    lookupVal (df.map (fun p => if p.1 = x then (p.1, v) else p)) x = v
  | [], h => by simp at h
  | (k, w) :: t, h => by
    show lookupVal ((if k = x then (k, v) else (k, w)) :: _) x = v
    by_cases hk : k = x
    · rw [if_pos hk, lookupVal_cons, if_pos hk]
    · rw [if_neg hk, lookupVal_cons, if_neg hk]
      apply lookup_overwrite_self x v t
      rw [List.any_cons] at h
      rcases (Bool.or_eq_true _ _).mp h with h' | h'
      · exact absurd (of_decide_eq_true h') hk
      · exact h'

theorem lookup_append_single_ne (x : String) (v : Jval) (c : String) (hxc : x ≠ c) :
    ∀ (df : List (String × Jval)), lookupVal (df ++ [(x, v)]) c = lookupVal df c
  | [] => by
    show lookupVal [(x, v)] c = lookupVal [] c
    rw [lookupVal_cons, if_neg hxc]
  | (k, w) :: t => by
    show lookupVal ((k, w) :: (t ++ [(x, v)])) c = _
    rw [lookupVal_cons, lookupVal_cons]
    by_cases hk : k = c
    · rw [if_pos hk, if_pos hk]
    · rw [if_neg hk, if_neg hk]
      exact lookup_append_single_ne x v c hxc t

theorem lookup_append_absent (l2 : List (String × Jval)) (c : String) :
    ∀ (l1 : List (String × Jval)), (∀ p ∈ l1, p.1 ≠ c) →
    lookupVal (l1 ++ l2) c = lookupVal l2 c
  | [], _ => rfl
  | (k, w) :: t, h => by
    have hk : k ≠ c := h (k, w) (List.mem_cons_self _ _)
    show lookupVal ((k, w) :: (t ++ l2)) c = _
    rw [lookupVal_cons, if_neg hk]
    exact lookup_append_absent l2 c t (fun q hq => h q (List.mem_cons_of_mem _ hq))

theorem setColumn_lookup_ne (df : List (String × Jval)) (x : String) (v : Jval)
    (c : String) (hxc : x ≠ c) :
    lookupVal (setColumn df x v) c = lookupVal df c := by
  unfold setColumn
  by_cases h : df.any (fun p => p.1 = x) = true
  · rw [if_pos h]
    exact lookup_overwrite_ne x v c hxc df
  · rw [if_neg h]
    exact lookup_append_single_ne x v c hxc df

theorem setColumn_lookup_self (df : List (String × Jval)) (x : String) (v : Jval) :
    lookupVal (setColumn df x v) x = v := by
  unfold setColumn
  by_cases h : df.any (fun p => p.1 = x) = true
  · rw [if_pos h]
    exact lookup_overwrite_self x v df h
  · rw [if_neg h]
    have habs : ∀ p ∈ df, p.1 ≠ x := by
      intro p hp he
      exact h (List.any_eq_true.mpr ⟨p, hp, decide_eq_true he⟩)
    rw [lookup_append_absent [(x, v)] x df habs, lookupVal_cons, if_pos rfl]

theorem dummyCols_fst (f : String) (v : Jval) (p : String × Jval)
    (hp : p ∈ dummyCols f v) : ∃ s, p.1 = (f ++ "_") ++ s := by
  cases v with
  | null => simp [dummyCols, jvalCategoryName] at hp
  | str s =>
    simp only [dummyCols, jvalCategoryName, List.mem_singleton] at hp
    exact ⟨s, by rw [hp, String.append_assoc]⟩
  | num q =>
    simp only [dummyCols, jvalCategoryName, List.mem_singleton] at hp
    exact ⟨toString q, by rw [hp, String.append_assoc]⟩

theorem append_head_u_ne_ciclo (f s : String) (h : ∃ t, f.data = 'u' :: t) :
    (f ++ s) ≠ "ciclo_em_dias" := by
  intro he
  obtain ⟨t, hf⟩ := h
  have hd : (f ++ s).data = "ciclo_em_dias".data := congrArg String.data he
  have hd2 : 'u' :: (t ++ s.data) = "ciclo_em_dias".data := by
    have : (f ++ s).data = f.data ++ s.data := rfl
    rw [this, hf] at hd
    exact hd
  have h3 : ('u' :: (t ++ s.data)).head? = ("ciclo_em_dias".data).head? :=
    congrArg List.head? hd2
  simp [List.head?] at h3

theorem dummyCols_ne_ciclo (f : String) (v : Jval) (p : String × Jval)
    (hp : p ∈ dummyCols f v) (hu : ∃ t, (f ++ "_").data = 'u' :: t) :
    p.1 ≠ "ciclo_em_dias" := by
  obtain ⟨s, hs⟩ := dummyCols_fst f v p hp
  rw [hs]
  exact append_head_u_ne_ciclo _ _ hu

theorem get_dummies_fst_ne_ciclo (d : DealForModel) :
    ∀ p ∈ get_dummies d, p.1 ≠ "ciclo_em_dias" := by
  intro p hp
  rw [get_dummies] at hp
  rcases List.mem_cons.mp hp with h | h
  · rw [h]
    show "valor" ≠ "ciclo_em_dias"
    decide
  rcases List.mem_append.mp h with h | h
  · rcases List.mem_append.mp h with h | h
    · rcases List.mem_append.mp h with h | h
      · rcases List.mem_append.mp h with h | h
        · exact dummyCols_ne_ciclo _ _ _ h ⟨"tm_campaign_".data, by decide⟩
        · exact dummyCols_ne_ciclo _ _ _ h ⟨"tm_content_".data, by decide⟩
      · exact dummyCols_ne_ciclo _ _ _ h ⟨"tm_medium_".data, by decide⟩
    · exact dummyCols_ne_ciclo _ _ _ h ⟨"tm_source_".data, by decide⟩
  · exact dummyCols_ne_ciclo _ _ _ h ⟨"tm_term_".data, by decide⟩

theorem aligned_lookup (mc : List String) (dm : List (String × Jval))
    (hdm : ∀ p ∈ dm, p.1 ≠ "ciclo_em_dias") (c : String) (hc : c ∈ mc) :
    lookupVal (setColumn (concatRow mc dm) "ciclo_em_dias" (Jval.num 0)) c =
      lookupVal dm c := by
  by_cases h : c = "ciclo_em_dias"
  · subst h
    rw [setColumn_lookup_self]
    exact (lookupVal_absent _ dm hdm).symm
  · rw [setColumn_lookup_ne _ _ _ _ (fun he => h he.symm)]
    exact lookupVal_map_fst_append (lookupVal dm) _ c mc hc

/-! ### Concrete inputs used by witnesses and counterexamples -/

/-- A transparent stand-in scorer: returns how many features it was handed. -/
def lengthScorer (v : List Jval) : ℚ := v.length

/-- A registry whose names are all fixed under sanitization. -/
def mcC1 : List String :=
  ["valor", "ciclo_em_dias", "utm_source_google", "utm_source_desconhecido",
   "utm_medium_desconhecido"]

/-- A webhook-shaped deal record: value 5000, source google, rest sentinel. -/
def dealC1 : DealForModel :=
  { valor := Jval.num 5000, utm_source := Jval.str "google",
    utm_medium := Jval.str "desconhecido", utm_campaign := Jval.str "desconhecido",
    utm_content := Jval.str "desconhecido", utm_term := Jval.str "desconhecido" }

/-- A sanitized-form registry holding the sanitized name of the category
`[g]` (the spec states the registry was built under the sanitization rule). -/
def mcC2 : List String :=
  ["valor", "ciclo_em_dias", "utm_campaign_desconhecido", "utm_content_desconhecido",
   "utm_medium_desconhecido", "utm_source__g_", "utm_term_desconhecido"]

/-- A record whose `utm_source` category produces a raw column name with
brackets. -/
def dealC2 : DealForModel :=
  { valor := Jval.num 100, utm_source := Jval.str "[g]",
    utm_medium := Jval.str "desconhecido", utm_campaign := Jval.str "desconhecido",
    utm_content := Jval.str "desconhecido", utm_term := Jval.str "desconhecido" }

/-- A `current` payload whose `utm_source` is present but null. -/
def currentC3 : List (String × Jval) :=
  [("id", Jval.num 5), ("pipeline_id", Jval.num 1), ("value", Jval.num 100),
   ("utm_source", Jval.null)]

/-- A registry holding the sentinel one-hot column for every tag. -/
def mcC3 : List String :=
  ["valor", "ciclo_em_dias", "utm_campaign_desconhecido", "utm_content_desconhecido",
   "utm_medium_desconhecido", "utm_source_desconhecido", "utm_term_desconhecido"]

/-- A fully-sentineled record. -/
def dealC6 : DealForModel :=
  { valor := Jval.num 100, utm_source := Jval.str "desconhecido",
    utm_medium := Jval.str "desconhecido", utm_campaign := Jval.str "desconhecido",
    utm_content := Jval.str "desconhecido", utm_term := Jval.str "desconhecido" }

/-! ### The claims -/

/-- C1: for every raw input record, the vector handed to the Scorer has
exactly the registry's `feature_columns` as its keys, in order: a registry
column present in the Encoder output keeps its encoded value, one absent is
zero-filled, and Encoder-output columns outside the registry are dropped.
Stated under the spec's premise that the registry was built under the
sanitization rule, i.e. its names are fixed points of `sanitize` (without it
the final relabelling would replace the keys by their sanitized forms). -/
theorem c1_alignment (mc : List String) (d : DealForModel) (scorer : List Jval → ℚ)
    (hs : ∀ c ∈ mc, sanitize c = c) :
    get_prediction_input mc d = mc.map (fun c => (c, lookupVal (get_dummies d) c)) ∧
    get_prediction_for_deal scorer mc d =
      scorer (mc.map (fun c => lookupVal (get_dummies d) c)) := by
  have hdm := get_dummies_fst_ne_ciclo d
  have key : ∀ c ∈ mc,
      lookupVal (setColumn (concatRow mc (get_dummies d)) "ciclo_em_dias" (Jval.num 0)) c =
        lookupVal (get_dummies d) c :=
    fun c hc => aligned_lookup mc (get_dummies d) hdm c hc
  have h1 : get_prediction_input mc d =
      mc.map (fun c => (c, lookupVal (get_dummies d) c)) := by
    unfold get_prediction_input selectColumns
    rw [List.map_map]
    refine List.map_congr_left ?_
    intro c hc
    show (sanitize c, lookupVal _ c) = (c, lookupVal (get_dummies d) c)
    rw [key c hc, hs c hc]
  refine ⟨h1, ?_⟩
  unfold get_prediction_for_deal
  rw [h1, List.map_map]
  rfl

/-- Witness for C1 at a concrete registry and record. -/
theorem c1_alignment_witness :
    get_prediction_input mcC1 dealC1 =
      mcC1.map (fun c => (c, lookupVal (get_dummies dealC1) c)) ∧
    get_prediction_for_deal lengthScorer mcC1 dealC1 =
      lengthScorer (mcC1.map (fun c => lookupVal (get_dummies dealC1) c)) :=
  c1_alignment mcC1 dealC1 lengthScorer (by decide)

/-- C2 fails on the code: the registry names are in sanitized form (mcC2 is
fixed under `sanitize`), the live encoded column is the raw `utm_source_[g]`
whose sanitized form equals the registry's `utm_source__g_`, yet the aligned
vector zero-fills `utm_source__g_` instead of giving it the encoded 1 —
sanitization is applied only after alignment, to the registry-ordered labels,
never to the live names at comparison time. -/
theorem c2_sanitization_mismatch :
    (∀ c ∈ mcC2, sanitize c = c) ∧
    sanitize "utm_source_[g]" = "utm_source__g_" ∧
    lookupVal (get_dummies dealC2) "utm_source_[g]" = Jval.num 1 ∧
    lookupVal (get_prediction_input mcC2 dealC2) "utm_source__g_" = Jval.num 0 := by
  decide

/-- C3 fails on the code: a present-but-null `utm_source` is passed through by
`deal_info.get("utm_source", "desconhecido")` (the default is used only when
the key is absent), `get_dummies` then drops the NaN cell so no `utm_source_*`
column exists, and the registry's sentinel column `utm_source_desconhecido`
is zero-filled instead of carrying 1. -/
theorem c3_null_not_coerced :
    (webhook_deal_for_model currentC3).utm_source = Jval.null ∧
    (get_dummies (webhook_deal_for_model currentC3)).map Prod.fst =
      ["valor", "utm_campaign_desconhecido", "utm_content_desconhecido",
       "utm_medium_desconhecido", "utm_term_desconhecido"] ∧
    lookupVal (get_prediction_input mcC3 (webhook_deal_for_model currentC3))
        "utm_source_desconhecido" = Jval.num 0 := by
  decide

/-- C6 (amended): with an empty `feature_columns` the aligner does not fail —
it produces the zero-length aligned vector and the Scorer is invoked on it.
(A missing registry artifact aborts at startup when `joblib.load` raises, but
an empty list is not detected anywhere.) -/
theorem c6_empty_registry (scorer : List Jval → ℚ) (d : DealForModel) :
    get_prediction_input [] d = [] ∧
    get_prediction_for_deal scorer [] d = scorer [] :=
  ⟨rfl, rfl⟩

/-- Counterexample to C6 as stated: at a concrete record and an empty
registry, alignment succeeds with the zero-length vector and the scorer is
applied to it — no configuration error is raised. -/
theorem c6_counterexample :
    get_prediction_input [] dealC6 = [] ∧
    get_prediction_for_deal lengthScorer [] dealC6 = lengthScorer [] :=
  ⟨rfl, rfl⟩

/-- A configuration with every environment variable unset. -/
def cfgNone : Config := { PIPEDRIVE_API_KEY := none, LEAD_SCORE_FIELD_KEY := none,
                          WEBHOOK_USER := none, WEBHOOK_PASSWORD := none }

/-- A fully-configured environment. -/
def cfgFull : Config := { PIPEDRIVE_API_KEY := some "chave",
                          LEAD_SCORE_FIELD_KEY := some "campo_score",
                          WEBHOOK_USER := some "usuario",
                          WEBHOOK_PASSWORD := some "senha" }

/-- A webhook payload from the wrong pipeline. -/
def curC7 : Option (List (String × Jval)) :=
  some [("id", Jval.num 7), ("pipeline_id", Jval.str "2")]

/-- The spec's end-to-end example request: valor 5000, source google. -/
def reqC5 : PredictRequest :=
  { valor := 5000, utm_campaign := none, utm_content := none, utm_medium := none,
    utm_source := some "google", utm_term := none }

/-- A constant scorer honouring the probability contract. -/
def halfScorer : List Jval → ℚ := fun _ => 1 / 2

/-- C4: bucketing is a pure function of p with exclusive upper and inclusive
lower boundaries — p > 0.7 is High, 0.4 < p ≤ 0.7 is Medium, p ≤ 0.4 is Low;
exactly 0.7 is Medium and exactly 0.4 is Low. -/
theorem c4_bucket_thresholds (p : ℚ) :
    (p > 0.7 → classification_bucket p = "High potential") ∧
    (0.4 < p → p ≤ 0.7 → classification_bucket p = "Medium potential") ∧
    (p ≤ 0.4 → classification_bucket p = "Low potential") ∧
    classification_bucket 0.7 = "Medium potential" ∧
    classification_bucket 0.4 = "Low potential" := by
  unfold classification_bucket
  refine ⟨?_, ?_, ?_, ?_, ?_⟩
  · intro h
    rw [if_pos h]
  · intro h1 h2
    rw [if_neg (not_lt.mpr h2), if_pos h1]
  · intro h
    have h2 : ¬p > 0.7 := not_lt.mpr (le_trans h (by norm_num))
    have h3 : ¬p > 0.4 := not_lt.mpr h
    rw [if_neg h2, if_neg h3]
  · norm_num
  · norm_num

/-- Witness for C4 at concrete probabilities. -/
theorem c4_bucket_witness :
    classification_bucket 1 = "High potential" ∧
    classification_bucket (1 / 2) = "Medium potential" ∧
    classification_bucket (1 / 10) = "Low potential" :=
  ⟨(c4_bucket_thresholds 1).1 (by norm_num),
   (c4_bucket_thresholds (1 / 2)).2.1 (by norm_num) (by norm_num),
   (c4_bucket_thresholds (1 / 10)).2.2.1 (by norm_num)⟩

/-- C5: the direct-prediction endpoint takes one numeric `valor` plus five
optional tags (sentinel-defaulted), runs Encoder→Aligner→Scorer→Bucketing,
and returns a probability in [0,1] (given the Scorer's contract) with one of
the three fixed labels. -/
theorem c5_predict_endpoint (scorer : List Jval → ℚ) (mc : List String)
    (req : PredictRequest) (hscorer : ∀ v, 0 ≤ scorer v ∧ scorer v ≤ 1) :
    0 ≤ (predict_handler scorer mc req).lead_score_probability ∧
    (predict_handler scorer mc req).lead_score_probability ≤ 1 ∧
    ((predict_handler scorer mc req).prediction_label = "Ganho Provável" ∨
     (predict_handler scorer mc req).prediction_label = "Potencial Médio" ∨
     (predict_handler scorer mc req).prediction_label = "Perda Provável") ∧
    (predict_handler scorer mc req).lead_score_probability =
      get_prediction_for_deal scorer mc (predict_request_deal req) := by
  have hlabel : ∀ q : ℚ, prediction_label q = "Ganho Provável" ∨
      prediction_label q = "Potencial Médio" ∨ prediction_label q = "Perda Provável" := by
    intro q
    unfold prediction_label
    split_ifs <;> simp
  exact ⟨(hscorer _).1, (hscorer _).2, hlabel _, rfl⟩

/-- Witness for C5 at the spec's example request and a concrete scorer. -/
theorem c5_predict_witness :
    0 ≤ (predict_handler halfScorer mcC1 reqC5).lead_score_probability ∧
    (predict_handler halfScorer mcC1 reqC5).lead_score_probability ≤ 1 ∧
    ((predict_handler halfScorer mcC1 reqC5).prediction_label = "Ganho Provável" ∨
     (predict_handler halfScorer mcC1 reqC5).prediction_label = "Potencial Médio" ∨
     (predict_handler halfScorer mcC1 reqC5).prediction_label = "Perda Provável") ∧
    (predict_handler halfScorer mcC1 reqC5).lead_score_probability =
      get_prediction_for_deal halfScorer mcC1 (predict_request_deal reqC5) :=
  c5_predict_endpoint halfScorer mcC1 reqC5
    (fun _ => ⟨by norm_num [halfScorer], by norm_num [halfScorer]⟩)

/-- C7: on an authenticated webhook request, a payload without `current.id`
is acknowledged with status ok and no scoring; a payload whose pipeline
differs from the target is acknowledged with an "ignorado" message, no
scoring and no write-back; and the pipeline runs (with a write-back attempt)
exactly when the id is truthy and the pipeline matches the target. -/
theorem c7_webhook_filtering (cfg : Config) (scorer : List Jval → ℚ)
    (mc : List String) (http : HttpOutcome) (creds : HTTPBasicCredentials)
    (current : Option (List (String × Jval)))
    (hauth : verify_credentials cfg creds = Except.ok true) :
    ((current.getD []).lookup "id" = none →
      pipedrive_webhook cfg scorer mc http creds current =
        Except.ok
          { response := { status := "ok", message := "Evento sem ID de negócio, ignorado." },
            scored := false, update := none }) ∧
    ((current.getD []).lookup "pipeline_id" ≠ some (Jval.num TARGET_PIPELINE_ID) →
      (pipedrive_webhook cfg scorer mc http creds current).toOption.map
          (fun o => (o.response.status, containsStr o.response.message "ignorado",
                     o.scored, o.update)) =
        some ("ok", true, false, none)) ∧
    ((pipedrive_webhook cfg scorer mc http creds current).toOption.map
        (fun o => (o.scored, o.update.isSome)) =
      some
        (truthy ((current.getD []).lookup "id") &&
           decide ((current.getD []).lookup "pipeline_id" =
             some (Jval.num TARGET_PIPELINE_ID)),
         truthy ((current.getD []).lookup "id") &&
           decide ((current.getD []).lookup "pipeline_id" =
             some (Jval.num TARGET_PIPELINE_ID)))) := by
  simp only [pipedrive_webhook, hauth]
  refine ⟨?_, ?_, ?_⟩
  · intro hid
    have h1 : truthy ((current.getD []).lookup "id") = false := by rw [hid]; rfl
    rw [if_pos h1]
  · intro hpid
    by_cases h1 : truthy ((current.getD []).lookup "id") = false
    · rw [if_pos h1]
      decide
    · rw [if_neg h1, if_pos hpid]
      show some ("ok",
          containsStr
            ("Negócio ignorado (funil " ++ pyStr ((current.getD []).lookup "pipeline_id") ++ ").")
            "ignorado",
          false, (none : Option UpdateResult)) = some ("ok", true, false, none)
      have hc : containsStr
          ("Negócio ignorado (funil " ++ pyStr ((current.getD []).lookup "pipeline_id") ++ ").")
          "ignorado" = true :=
        containsStr_append_left _ _ _ (containsStr_append_left _ _ _ (by decide))
      rw [hc]
  · by_cases h1 : truthy ((current.getD []).lookup "id") = false
    · rw [if_pos h1, h1]
      simp [Except.toOption]
    · have h1' : truthy ((current.getD []).lookup "id") = true := by
        cases hb : truthy ((current.getD []).lookup "id") with
        | false => exact absurd hb h1
        | true => rfl
      by_cases h2 : (current.getD []).lookup "pipeline_id" ≠ some (Jval.num TARGET_PIPELINE_ID)
      · rw [if_neg h1, if_pos h2, h1', decide_eq_false h2]
        simp [Except.toOption]
      · have h2' : (current.getD []).lookup "pipeline_id" = some (Jval.num TARGET_PIPELINE_ID) :=
          not_not.mp h2
        rw [if_neg h1, if_neg h2, h1', decide_eq_true h2']
        simp [Except.toOption]

/-- Witness for C7: an authenticated request from pipeline "2" is
acknowledged with an "ignorado" message, unscored and without write-back. -/
theorem c7_filtering_witness :
    (pipedrive_webhook cfgNone lengthScorer [] (HttpOutcome.ok 200) ⟨"", ""⟩ curC7).toOption.map
        (fun o => (o.response.status, containsStr o.response.message "ignorado",
                   o.scored, o.update)) =
      some ("ok", true, false, none) :=
  (c7_webhook_filtering cfgNone lengthScorer [] (HttpOutcome.ok 200) ⟨"", ""⟩ curC7
    rfl).2.1 (by decide)

/-- C8 (amended): the write-back PUTs `round(score*100, 2)` into the
configured custom field at most once (never retried); a failure surfaced by
the HTTP layer — a request exception or a 4xx/5xx response, the statuses
`raise_for_status` raises for — is logged and swallowed; and the webhook's
response is the same whatever the write-back outcome, always with status
"ok". -/
theorem c8_writeback (cfg : Config) (http http2 : HttpOutcome) (deal_id : Jval)
    (score : ℚ) (scorer : List Jval → ℚ) (mc : List String)
    (creds : HTTPBasicCredentials) (current : Option (List (String × Jval))) :
    (update_pipedrive_deal cfg http deal_id score).calls.length ≤ 1 ∧
    (optTruthy cfg.PIPEDRIVE_API_KEY = true → optTruthy cfg.LEAD_SCORE_FIELD_KEY = true →
      (update_pipedrive_deal cfg http deal_id score).calls =
        [(cfg.LEAD_SCORE_FIELD_KEY.getD "", pyRound2 (score * 100))] ∧
      (httpFailed http = true →
        (update_pipedrive_deal cfg http deal_id score).loggedError = true)) ∧
    (pipedrive_webhook cfg scorer mc http creds current).map (fun o => o.response) =
      (pipedrive_webhook cfg scorer mc http2 creds current).map (fun o => o.response) ∧
    (∀ o, pipedrive_webhook cfg scorer mc http creds current = Except.ok o →
      o.response.status = "ok") := by
  refine ⟨?_, ?_, ?_, ?_⟩
  · unfold update_pipedrive_deal
    by_cases hc : (optTruthy cfg.PIPEDRIVE_API_KEY && optTruthy cfg.LEAD_SCORE_FIELD_KEY) = true
    · rw [if_pos hc]
      exact le_refl 1
    · rw [if_neg hc]
      exact Nat.zero_le 1
  · intro ha hb
    have hc : (optTruthy cfg.PIPEDRIVE_API_KEY && optTruthy cfg.LEAD_SCORE_FIELD_KEY) = true := by
      rw [ha, hb]
      rfl
    unfold update_pipedrive_deal
    rw [if_pos hc]
    exact ⟨rfl, fun hf => hf⟩
  · cases hv : verify_credentials cfg creds with
    | error e => simp [pipedrive_webhook, hv]
    | ok b =>
      simp only [pipedrive_webhook, hv]
      by_cases h1 : truthy ((current.getD []).lookup "id") = false
      · rw [if_pos h1, if_pos h1]
      · by_cases h2 :
            (current.getD []).lookup "pipeline_id" ≠ some (Jval.num TARGET_PIPELINE_ID)
        · rw [if_neg h1, if_pos h2, if_neg h1, if_pos h2]
        · rw [if_neg h1, if_neg h2, if_neg h1, if_neg h2]
          rfl
  · intro o
    cases hv : verify_credentials cfg creds with
    | error e =>
      simp only [pipedrive_webhook, hv]
      intro ho
      cases ho
    | ok b =>
      simp only [pipedrive_webhook, hv]
      by_cases h1 : truthy ((current.getD []).lookup "id") = false
      · rw [if_pos h1]
        intro ho
        rw [← Except.ok.inj ho]
      · rw [if_neg h1]
        by_cases h2 :
            (current.getD []).lookup "pipeline_id" ≠ some (Jval.num TARGET_PIPELINE_ID)
        · rw [if_pos h2]
          intro ho
          rw [← Except.ok.inj ho]
        · rw [if_neg h2]
          intro ho
          rw [← Except.ok.inj ho]

/-- Counterexample to C8 as stated: a 300 response is not 2xx, yet
`raise_for_status` does not raise for it, so the failure branch does not log —
the write-back was attempted (one call) and `loggedError` stays false. -/
theorem c8_counterexample :
    httpFailed (HttpOutcome.ok 300) = false ∧
    (update_pipedrive_deal cfgFull (HttpOutcome.ok 300) (Jval.num 7) (17 / 20)).calls.length = 1 ∧
    (update_pipedrive_deal cfgFull (HttpOutcome.ok 300) (Jval.num 7) (17 / 20)).loggedError =
      false := by
  decide

/-- C9: a failed credential check produces the one fixed 401 response whether
the username, the password or both are wrong, and acceptance is exactly
`compare_digest` succeeding on both halves against the configured secrets. -/
theorem c9_auth_uniform (cfg : Config) (creds : HTTPBasicCredentials) :
    (verify_credentials cfg creds = Except.error (401, "Credenciais inválidas") ∨
     verify_credentials cfg creds = Except.ok true) ∧
    (verify_credentials cfg creds = Except.ok true ↔
      (compare_digest creds.username (cfg.WEBHOOK_USER.getD "") = true ∧
       compare_digest creds.password (cfg.WEBHOOK_PASSWORD.getD "") = true)) := by
  cases hu : compare_digest creds.username (cfg.WEBHOOK_USER.getD "") with
  | false => simp [verify_credentials, hu]
  | true =>
    cases hp : compare_digest creds.password (cfg.WEBHOOK_PASSWORD.getD "") with
    | false => simp [verify_credentials, hu, hp]
    | true => simp [verify_credentials, hu, hp]

/-- Witness for C9: one wrong half yields the fixed 401 error. -/
theorem c9_auth_uniform_witness :
    (verify_credentials cfgFull ⟨"usuario", "errada"⟩ =
        Except.error (401, "Credenciais inválidas") ∨
     verify_credentials cfgFull ⟨"usuario", "errada"⟩ = Except.ok true) ∧
    (verify_credentials cfgFull ⟨"usuario", "errada"⟩ = Except.ok true ↔
      (compare_digest "usuario" (cfgFull.WEBHOOK_USER.getD "") = true ∧
       compare_digest "errada" (cfgFull.WEBHOOK_PASSWORD.getD "") = true)) :=
  c9_auth_uniform cfgFull ⟨"usuario", "errada"⟩

/-- C10: with WEBHOOK_USER and WEBHOOK_PASSWORD unset the stored secrets are
the empty string, so empty Basic credentials authenticate on the webhook and
the debug endpoint. -/
theorem c10_unset_env_empty_creds :
    verify_credentials cfgNone ⟨"", ""⟩ = Except.ok true ∧
    (pipedrive_webhook cfgNone lengthScorer [] (HttpOutcome.ok 200) ⟨"", ""⟩ none).isOk =
      true ∧
    (debug_vars cfgNone ⟨"", ""⟩).isOk = true :=
  ⟨rfl, rfl, rfl⟩

end LeadScoring
